import Mathlib

/-!
Shallow embedding of the cart/order store of `metall-it-front`
(`src/unnamed/part_000`, the `CartProvider` React context).

JavaScript numbers carrying prices are modelled as rationals (`ℚ`),
ids and quantities as integers (`ℤ`).  Optional fields
(`availableSuppliers?`, `selectedSupplierName?`) are `Option`s, and
JavaScript truthiness of a possibly-undefined string (`undefined` and
`""` are falsy) is made explicit by `strTruthy`.  The nondeterministic
inputs of `placeOrder` (`Date.now()`, `Math.random()`, the generated id
and date strings) are passed as parameters, and the success callback is
modelled by a count of its invocations in the result.
-/

/-- One supplier offer: `{ name: string; price: number }`. -/
structure Supplier where
  name : String
  price : ℚ
deriving DecidableEq

/-- `CartItem` of the source. -/
structure CartItem where
  id : ℤ
  name : String
  quantity : ℤ
  availableSuppliers : Option (List Supplier)
  selectedSupplierName : Option String
deriving DecidableEq

/-- `OrderItem` of the source. -/
structure OrderItem where
  productId : ℤ
  productName : String
  quantity : ℤ
  supplierName : String
  supplierPrice : ℚ
  itemTotal : ℚ
deriving DecidableEq

/-- `Order` of the source. -/
structure Order where
  id : String
  date : String
  items : List OrderItem
  totalAmount : ℚ
deriving DecidableEq

/-- The two state variables of the provider: `items` and `orders`. -/
structure CartState where
  items : List CartItem
  orders : List Order
deriving DecidableEq

/-- JavaScript truthiness of a `string | undefined` value: `undefined`
and the empty string are falsy. -/
def strTruthy : Option String → Bool
  | none => false
  | some s => !(s == "")

/-- `arr.reduce((min, cur) => cur.price < min.price ? cur : min, first)`:
the left fold used to find the cheapest supplier (strict `<`, so ties
keep the earlier element). -/
def cheapestFrom (first : Supplier) (l : List Supplier) : Supplier :=
  l.foldl (fun m c => if c.price < m.price then c else m) first

/-- The per-item initializer applied to every cart item loaded from
`localStorage` (lines 57–72): when the offer list is non-empty, replace
`selectedSupplierName` by the cheapest offer's name unless it already
equals it.  The JS reduce starts from `availableSuppliers[0]` and folds
over the whole array. -/
def initItem (item : CartItem) : CartItem :=
  match item.availableSuppliers with
  | some (a :: rest) =>
    let cheapest := cheapestFrom a (a :: rest)
    if !(strTruthy item.selectedSupplierName)
        || (item.selectedSupplierName != some cheapest.name)
    then { item with selectedSupplierName := some cheapest.name }
    else item
  | _ => item

/-- `localStorage` as seen by this store: the two records
`"cartItems"` and `"orders"` (absent = `none`). -/
structure Storage where
  cartItems : Option (List CartItem)
  orders : Option (List Order)
deriving DecidableEq

/-- The persistence effects (lines 83–90): both lists are re-serialized
to storage on every change. -/
def saveState (s : CartState) : Storage :=
  { cartItems := some s.items, orders := some s.orders }

/-- The two `useState` initializers (lines 53–81): load each list from
storage (empty when absent) and run `initItem` over every cart item. -/
def loadState (st : Storage) : CartState :=
  { items := (st.cartItems.getD []).map initItem
  , orders := st.orders.getD [] }

/-- The `findIndex` predicate of `addToCart` (lines 94–101): same
product id and same (strict-equality) `selectedSupplierName`. -/
def matchKey (it product : CartItem) : Bool :=
  it.id == product.id && it.selectedSupplierName == product.selectedSupplierName

/-- Lines 113–122: the item actually appended when no existing entry
matches: if it has a non-empty offer list and no (truthy) selected
supplier, auto-select the cheapest offer. -/
def autoSelectAdd (product : CartItem) : CartItem :=
  match product.availableSuppliers with
  | some (a :: rest) =>
    if strTruthy product.selectedSupplierName then product
    else { product with
            selectedSupplierName := some (cheapestFrom a (a :: rest)).name }
  | _ => product

/-- `addToCart` (lines 92–126): merge the quantity into the first entry
matching id + selected supplier, otherwise append (with auto-selection). -/
def addToCart (product : CartItem) : List CartItem → List CartItem
  | [] => [autoSelectAdd product]
  | it :: rest =>
    if matchKey it product
    then { it with quantity := it.quantity + product.quantity } :: rest
    else it :: addToCart product rest

/-- `removeFromCart` (lines 128–130): drop every entry with this id. -/
def removeFromCart (productId : ℤ) (prevItems : List CartItem) : List CartItem :=
  prevItems.filter (fun it => !(it.id == productId))

/-- `updateQuantity` (lines 132–139): set the quantity of entries with
this id, then keep only entries with quantity > 0. -/
def updateQuantity (productId : ℤ) (quantity : ℤ)
    (prevItems : List CartItem) : List CartItem :=
  (prevItems.map fun it =>
    if it.id == productId then { it with quantity := quantity } else it).filter
    (fun it => decide (0 < it.quantity))

/-- `clearCart` (lines 141–143). -/
def clearCart : List CartItem := []

/-- `selectSupplierForItem` (lines 145–151): set (or clear) the selected
supplier of entries with this id, without validation. -/
def selectSupplierForItem (itemId : ℤ) (supplierName : Option String)
    (prevItems : List CartItem) : List CartItem :=
  prevItems.map fun it =>
    if it.id == itemId then { it with selectedSupplierName := supplierName } else it

/-- Lines 169–186: resolve one cart entry to an `OrderItem` by finding
the offer whose name strictly equals `selectedSupplierName`
(`availableSuppliers?.find(...)`; an undefined offer list finds
nothing).  `none` means the entry is skipped. -/
def mkOrderItem (item : CartItem) : Option OrderItem :=
  match (item.availableSuppliers.getD []).find?
      (fun s => item.selectedSupplierName == some s.name) with
  | some s =>
    some { productId := item.id
         , productName := item.name
         , quantity := item.quantity
         , supplierName := s.name
         , supplierPrice := s.price
         , itemTotal := s.price * (item.quantity : ℚ) }
  | none => none

/-- The price the checkout resolves for an entry (0 when unresolvable;
only used under hypotheses making every entry resolvable). -/
def resolvedPrice (item : CartItem) : ℚ :=
  match (item.availableSuppliers.getD []).find?
      (fun s => item.selectedSupplierName == some s.name) with
  | some s => s.price
  | none => 0

/-- `parseFloat(x.toFixed(2))`: round to 2 decimal places. -/
def round2 (q : ℚ) : ℚ := (round (q * 100) : ℚ) / 100

/-- `ORDER-${Date.now()}-${Math.floor(Math.random() * 1000)}`
(line 194), with the two nondeterministic numbers as parameters. -/
def genOrderId (now rand : ℕ) : String :=
  "ORDER-" ++ toString now ++ "-" ++ toString rand

/-- Result of a `placeOrder` call: the two state variables afterwards
and how many times `onCheckoutSuccess` was invoked. -/
structure PlaceOrderResult where
  items : List CartItem
  orders : List Order
  callbackCount : ℕ
deriving DecidableEq

/-- `placeOrder` (lines 153–204).  Aborts (alert, no state change, no
callback) when the cart is empty, when some entry has no truthy
`selectedSupplierName`, or when no entry resolves to an order item;
otherwise appends one new order built from the resolvable entries,
clears the cart and invokes the callback once.  `oid` and `d` stand for
the generated id and date strings. -/
def placeOrder (oid d : String) (s : CartState) : PlaceOrderResult :=
  if s.items.isEmpty then
    { items := s.items, orders := s.orders, callbackCount := 0 }
  else if !(s.items.all fun it => strTruthy it.selectedSupplierName) then
    { items := s.items, orders := s.orders, callbackCount := 0 }
  else
    let newOrderItems := s.items.filterMap mkOrderItem
    if newOrderItems.isEmpty then
      { items := s.items, orders := s.orders, callbackCount := 0 }
    else
      let newOrder : Order :=
        { id := oid
        , date := d
        , items := newOrderItems
        , totalAmount := round2 ((newOrderItems.map OrderItem.itemTotal).sum) }
      { items := [], orders := s.orders ++ [newOrder], callbackCount := 1 }

/-- State-level wrappers: each mutation only calls `setItems`, leaving
`orders` to the other state variable. -/
def stateAddToCart (p : CartItem) (s : CartState) : CartState :=
  { s with items := addToCart p s.items }

def stateRemoveFromCart (pid : ℤ) (s : CartState) : CartState :=
  { s with items := removeFromCart pid s.items }

def stateUpdateQuantity (pid q : ℤ) (s : CartState) : CartState :=
  { s with items := updateQuantity pid q s.items }

def stateClearCart (s : CartState) : CartState :=
  { s with items := clearCart }

def stateSelectSupplier (iid : ℤ) (nm : Option String) (s : CartState) : CartState :=
  { s with items := selectSupplierForItem iid nm s.items }

/-- An entry "has a selected supplier that resolves": the selected name
is truthy and matches an offer in its own list. -/
def hasResolvedSupplier (it : CartItem) : Bool :=
  strTruthy it.selectedSupplierName && (mkOrderItem it).isSome

/-- `c` is a minimum-price offer of `l` and, among the offers of
minimal price, the first one in list order (`find?` returns the first
element whose price is ≤ the minimum). -/
def firstMinOffer (l : List Supplier) (c : Supplier) : Prop :=
  (∀ t ∈ l, c.price ≤ t.price) ∧
  l.find? (fun t => decide (t.price ≤ c.price)) = some c

/-! ### Helper lemmas about `placeOrder` -/

theorem placeOrder_abort_empty (oid d : String) (s : CartState)
    (h : s.items = []) :
    placeOrder oid d s = ⟨s.items, s.orders, 0⟩ := by
  simp [placeOrder, h]

theorem placeOrder_abort_unselected (oid d : String) (s : CartState)
    (h : ∃ it ∈ s.items, strTruthy it.selectedSupplierName = false) :
    placeOrder oid d s = ⟨s.items, s.orders, 0⟩ := by
  obtain ⟨it, hit, hf⟩ := h
  have hall : s.items.all (fun it => strTruthy it.selectedSupplierName) = false := by
    rw [List.all_eq_false]
    exact ⟨it, hit, by simp [hf]⟩
  have hne : s.items ≠ [] := by
    intro he
    rw [he] at hit
    exact absurd hit (List.not_mem_nil it)
  simp [placeOrder, hall, hne]

theorem placeOrder_abort_unresolved (oid d : String) (s : CartState)
    (hne : s.items ≠ [])
    (h : s.items.filterMap mkOrderItem = []) :
    placeOrder oid d s = ⟨s.items, s.orders, 0⟩ := by
  by_cases hall : s.items.all (fun it => strTruthy it.selectedSupplierName)
  · simp [placeOrder, hne, hall, h]
  · simp [placeOrder, hne, hall]

theorem placeOrder_success_eq (oid d : String) (s : CartState)
    (hne : s.items ≠ [])
    (hall : ∀ it ∈ s.items, strTruthy it.selectedSupplierName = true)
    (hres : s.items.filterMap mkOrderItem ≠ []) :
    placeOrder oid d s =
      ⟨[], s.orders ++
        [⟨oid, d, s.items.filterMap mkOrderItem,
          round2 (((s.items.filterMap mkOrderItem).map OrderItem.itemTotal).sum)⟩],
        1⟩ := by
  have hall' : s.items.all (fun it => strTruthy it.selectedSupplierName) = true := by
    rw [List.all_eq_true]; exact hall
  simp [placeOrder, hne, hall', hres]

theorem mkOrderItem_itemTotal (it : CartItem) (oi : OrderItem)
    (h : mkOrderItem it = some oi) :
    oi.itemTotal = resolvedPrice it * (it.quantity : ℚ) := by
  unfold mkOrderItem at h
  unfold resolvedPrice
  cases hf : (it.availableSuppliers.getD []).find?
      (fun s => it.selectedSupplierName == some s.name) with
  | none => rw [hf] at h; exact absurd h (by simp)
  | some s =>
    rw [hf] at h
    have := (Option.some_inj.mp h).symm
    rw [this]

theorem filterMap_total_eq (items : List CartItem)
    (h : ∀ it ∈ items, (mkOrderItem it).isSome) :
    ((items.filterMap mkOrderItem).map OrderItem.itemTotal).sum
      = (items.map fun it => resolvedPrice it * (it.quantity : ℚ)).sum := by
  induction items with
  | nil => rfl
  | cons a l ih =>
    have ha : (mkOrderItem a).isSome := h a (List.mem_cons_self a l)
    cases hma : mkOrderItem a with
    | none => rw [hma] at ha; exact absurd ha (by simp)
    | some oi =>
      simp only [List.filterMap_cons, hma]
      simp only [List.map_cons, List.sum_cons]
      rw [ih (fun it hit => h it (List.mem_cons_of_mem a hit)),
        mkOrderItem_itemTotal a oi hma]

theorem hasResolvedSupplier_truthy (it : CartItem)
    (h : hasResolvedSupplier it = true) :
    strTruthy it.selectedSupplierName = true :=
  ((Bool.and_eq_true _ _).mp h).1

theorem hasResolvedSupplier_isSome (it : CartItem)
    (h : hasResolvedSupplier it = true) :
    (mkOrderItem it).isSome :=
  ((Bool.and_eq_true _ _).mp h).2

/-- **C1** (amended: the cart must additionally be non-empty).  When the
cart is non-empty and every entry has a selected supplier that resolves
to an offer in its list, `placeOrder` appends exactly one new order
whose `totalAmount` is the sum of resolved price × quantity over the
entries rounded to 2 decimals, empties the cart, and invokes the
success callback exactly once. -/
theorem C1_placeOrder_success (oid d : String) (s : CartState)
    (hne : s.items ≠ [])
    (hres : ∀ it ∈ s.items, hasResolvedSupplier it = true) :
    (placeOrder oid d s).orders = s.orders ++
        [⟨oid, d, s.items.filterMap mkOrderItem,
          round2 ((s.items.map fun it => resolvedPrice it * (it.quantity : ℚ)).sum)⟩] ∧
    (placeOrder oid d s).items = [] ∧
    (placeOrder oid d s).callbackCount = 1 := by
  have hall : ∀ it ∈ s.items, strTruthy it.selectedSupplierName = true :=
    fun it hit => hasResolvedSupplier_truthy it (hres it hit)
  have hsome : ∀ it ∈ s.items, (mkOrderItem it).isSome :=
    fun it hit => hasResolvedSupplier_isSome it (hres it hit)
  have hfm : s.items.filterMap mkOrderItem ≠ [] := by
    rw [Ne, List.filterMap_eq_nil_iff]
    intro hnone
    cases hs : s.items with
    | nil => exact hne hs
    | cons a l =>
      have := hsome a (by rw [hs]; exact List.mem_cons_self a l)
      rw [hnone a (by rw [hs]; exact List.mem_cons_self a l)] at this
      exact absurd this (by simp)
  rw [placeOrder_success_eq oid d s hne hall hfm,
    filterMap_total_eq s.items hsome]
  exact ⟨rfl, rfl, rfl⟩

theorem C1_placeOrder_success_witness :
    (placeOrder "ORDER-1-0" "d"
        ⟨[⟨1, "Widget", 2, some [⟨"A", 10⟩, ⟨"B", 8⟩], some "B"⟩], []⟩).orders =
      [] ++ [⟨"ORDER-1-0", "d",
        [⟨1, "Widget", 2, some [⟨"A", 10⟩, ⟨"B", 8⟩], some "B"⟩].filterMap mkOrderItem,
        round2 (([⟨1, "Widget", 2, some [⟨"A", 10⟩, ⟨"B", 8⟩], some "B"⟩].map
          fun it => resolvedPrice it * (it.quantity : ℚ)).sum)⟩] ∧
    (placeOrder "ORDER-1-0" "d"
        ⟨[⟨1, "Widget", 2, some [⟨"A", 10⟩, ⟨"B", 8⟩], some "B"⟩], []⟩).items = [] ∧
    (placeOrder "ORDER-1-0" "d"
        ⟨[⟨1, "Widget", 2, some [⟨"A", 10⟩, ⟨"B", 8⟩], some "B"⟩], []⟩).callbackCount = 1 :=
  C1_placeOrder_success "ORDER-1-0" "d"
    ⟨[⟨1, "Widget", 2, some [⟨"A", 10⟩, ⟨"B", 8⟩], some "B"⟩], []⟩
    (by decide) (by decide)

/-- **C1** fails as stated on the empty cart: every entry of the empty
cart vacuously has a resolving selected supplier, yet `placeOrder`
appends no order and never invokes the callback. -/
theorem C1_counterexample :
    (∀ it ∈ ([] : List CartItem), hasResolvedSupplier it = true) ∧
    (placeOrder "ORDER-1-0" "d" ⟨[], []⟩).orders = [] ∧
    (placeOrder "ORDER-1-0" "d" ⟨[], []⟩).callbackCount = 0 := by
  decide

/-- **C2**: on each of the three checkout validation failures (empty
cart; some entry without a truthy selected supplier; a non-empty cart in
which no entry resolves to an order item) `placeOrder` leaves both the
cart and the order history exactly as before and does not invoke the
success callback. -/
theorem C2_placeOrder_abort (oid d : String) (s : CartState)
    (h : s.items = [] ∨
         (∃ it ∈ s.items, strTruthy it.selectedSupplierName = false) ∨
         (s.items ≠ [] ∧ s.items.filterMap mkOrderItem = [])) :
    placeOrder oid d s = ⟨s.items, s.orders, 0⟩ := by
  rcases h with h | h | ⟨hne, h⟩
  · exact placeOrder_abort_empty oid d s h
  · exact placeOrder_abort_unselected oid d s h
  · exact placeOrder_abort_unresolved oid d s hne h

theorem C2_placeOrder_abort_witness :
    placeOrder "ORDER-1-0" "d" ⟨[], [⟨"old", "t", [], 0⟩]⟩ =
      ⟨[], [⟨"old", "t", [], 0⟩], 0⟩ :=
  C2_placeOrder_abort "ORDER-1-0" "d" ⟨[], [⟨"old", "t", [], 0⟩]⟩ (Or.inl rfl)

theorem addToCart_merge_first (p e : CartItem) (l1 l2 : List CartItem)
    (hnm : ∀ x ∈ l1, matchKey x p = false) (hm : matchKey e p = true) :
    addToCart p (l1 ++ e :: l2) =
      l1 ++ { e with quantity := e.quantity + p.quantity } :: l2 := by
  induction l1 with
  | nil => simp [addToCart, hm]
  | cons x l ih =>
    have hx : matchKey x p = false := hnm x (List.mem_cons_self x l)
    simp only [List.cons_append, addToCart, hx, Bool.false_eq_true, if_false,
      List.append_eq]
    rw [ih (fun y hy => hnm y (List.mem_cons_of_mem x hy))]

theorem addToCart_append_eq (p : CartItem) (items : List CartItem)
    (h : ∀ it ∈ items, it.id = p.id → it.selectedSupplierName ≠ p.selectedSupplierName) :
    addToCart p items = items ++ [autoSelectAdd p] := by
  induction items with
  | nil => simp [addToCart]
  | cons it rest ih =>
    have hit : matchKey it p = false := by
      unfold matchKey
      cases hid : it.id == p.id with
      | false => simp
      | true =>
        have : it.selectedSupplierName ≠ p.selectedSupplierName :=
          h it (List.mem_cons_self it rest) (by exact_mod_cast eq_of_beq hid)
        simp [this]
    simp only [addToCart, hit, Bool.false_eq_true, if_false, List.cons_append,
      List.append_eq]
    rw [ih (fun y hy hid => h y (List.mem_cons_of_mem it hy) hid)]

/-- **C3**: adding a product whose id and selected-supplier value both
equal those of an existing entry (the first such entry, with no earlier
match) increases that entry's quantity by the incoming quantity and adds
no new entry; adding a product whose selected-supplier value differs from
every existing entry of the same id appends exactly one separate new
entry (the incoming product, after auto-selection). -/
theorem C3_addToCart (p e : CartItem) (l1 l2 items : List CartItem) :
    ((∀ x ∈ l1, matchKey x p = false) → matchKey e p = true →
      addToCart p (l1 ++ e :: l2) =
        l1 ++ { e with quantity := e.quantity + p.quantity } :: l2) ∧
    ((∀ it ∈ items, it.id = p.id → it.selectedSupplierName ≠ p.selectedSupplierName) →
      addToCart p items = items ++ [autoSelectAdd p]) :=
  ⟨addToCart_merge_first p e l1 l2, addToCart_append_eq p items⟩

theorem C3_addToCart_witness :
    addToCart ⟨1, "x", 3, none, some "A"⟩
        ([⟨2, "y", 1, none, none⟩] ++ ⟨1, "x", 2, none, some "A"⟩ :: []) =
      [⟨2, "y", 1, none, none⟩] ++ ⟨1, "x", 5, none, some "A"⟩ :: [] ∧
    addToCart ⟨1, "x", 3, none, some "A"⟩ [⟨1, "x", 2, none, some "B"⟩] =
      [⟨1, "x", 2, none, some "B"⟩] ++ [autoSelectAdd ⟨1, "x", 3, none, some "A"⟩] :=
  ⟨(C3_addToCart ⟨1, "x", 3, none, some "A"⟩ ⟨1, "x", 2, none, some "A"⟩
      [⟨2, "y", 1, none, none⟩] [] [⟨1, "x", 2, none, some "B"⟩]).1
      (by decide) (by decide),
   (C3_addToCart ⟨1, "x", 3, none, some "A"⟩ ⟨1, "x", 2, none, some "A"⟩
      [⟨2, "y", 1, none, none⟩] [] [⟨1, "x", 2, none, some "B"⟩]).2
      (by decide)⟩

/-! ### The cheapest-supplier fold -/

theorem cheapestFrom_cons (acc b : Supplier) (t : List Supplier) :
    cheapestFrom acc (b :: t) =
      cheapestFrom (if b.price < acc.price then b else acc) t := rfl

theorem cheapestFrom_le (t : List Supplier) :
    ∀ acc : Supplier, (cheapestFrom acc t).price ≤ acc.price ∧
      ∀ x ∈ t, (cheapestFrom acc t).price ≤ x.price := by
  induction t with
  | nil => intro acc; exact ⟨le_refl _, by simp⟩
  | cons b t ih =>
    intro acc
    rw [cheapestFrom_cons]
    have h := ih (if b.price < acc.price then b else acc)
    have hstep_acc : (if b.price < acc.price then b else acc).price ≤ acc.price := by
      by_cases hb : b.price < acc.price
      · rw [if_pos hb]; exact le_of_lt hb
      · rw [if_neg hb]
    have hstep_b : (if b.price < acc.price then b else acc).price ≤ b.price := by
      by_cases hb : b.price < acc.price
      · rw [if_pos hb]
      · rw [if_neg hb]; exact le_of_not_lt hb
    refine ⟨le_trans h.1 hstep_acc, ?_⟩
    intro x hx
    rcases List.mem_cons.mp hx with hx | hx
    · rw [hx]; exact le_trans h.1 hstep_b
    · exact h.2 x hx

theorem cheapestFrom_find (t : List Supplier) :
    ∀ acc : Supplier,
      (acc :: t).find? (fun x => decide (x.price ≤ (cheapestFrom acc t).price)) =
        some (cheapestFrom acc t) := by
  induction t with
  | nil =>
    intro acc
    simp [cheapestFrom, List.find?]
  | cons b t ih =>
    intro acc
    rw [cheapestFrom_cons]
    by_cases hb : b.price < acc.price
    · rw [if_pos hb]
      have hle : (cheapestFrom b t).price ≤ b.price := (cheapestFrom_le t b).1
      have hacc : ¬ (acc.price ≤ (cheapestFrom b t).price) :=
        not_le.mpr (lt_of_le_of_lt hle hb)
      rw [List.find?_cons_of_neg _ (by simpa using hacc)]
      exact ih b
    · rw [if_neg hb]
      have hab : acc.price ≤ b.price := le_of_not_lt hb
      by_cases hra : acc.price ≤ (cheapestFrom acc t).price
      · have hfix : cheapestFrom acc t = acc := by
          have := ih acc
          rw [List.find?_cons_of_pos _ (by simpa using hra)] at this
          exact (Option.some_inj.mp this).symm
        rw [hfix]
        rw [List.find?_cons_of_pos _ (by simp)]
      · have htail : t.find? (fun x => decide (x.price ≤ (cheapestFrom acc t).price)) =
            some (cheapestFrom acc t) := by
          have := ih acc
          rw [List.find?_cons_of_neg _ (by simpa using hra)] at this
          exact this
        have hbn : ¬ (b.price ≤ (cheapestFrom acc t).price) := by
          intro hble
          exact hra (le_trans hab hble)
        rw [List.find?_cons_of_neg _ (by simpa using hra),
          List.find?_cons_of_neg _ (by simpa using hbn)]
        exact htail

theorem cheapestFrom_self (a : Supplier) (rest : List Supplier) :
    cheapestFrom a (a :: rest) = cheapestFrom a rest := by
  rw [cheapestFrom_cons, if_neg (lt_irrefl a.price)]

theorem cheapestFrom_firstMin (a : Supplier) (rest : List Supplier) :
    firstMinOffer (a :: rest) (cheapestFrom a (a :: rest)) := by
  rw [cheapestFrom_self]
  constructor
  · intro x hx
    rcases List.mem_cons.mp hx with hx | hx
    · rw [hx]; exact (cheapestFrom_le rest a).1
    · exact (cheapestFrom_le rest a).2 x hx
  · exact cheapestFrom_find rest a

theorem selected_update_self (item : CartItem)
    (h : item.selectedSupplierName = some n) :
    ({ item with selectedSupplierName := some n } : CartItem) = item := by
  cases item
  simp_all

theorem initItem_eq (item : CartItem) (a : Supplier) (rest : List Supplier)
    (h : item.availableSuppliers = some (a :: rest)) :
    initItem item =
      { item with
        selectedSupplierName := some (cheapestFrom a (a :: rest)).name } := by
  unfold initItem
  rw [h]
  dsimp only
  split
  · rfl
  · rename_i hcond
    rw [Bool.or_eq_true, not_or, Bool.not_eq_true, Bool.not_eq_true] at hcond
    have hsel : item.selectedSupplierName = some (cheapestFrom a (a :: rest)).name := by
      have := hcond.2
      rwa [bne_eq_false_iff_eq] at this
    rw [← h]
    exact (selected_update_self item hsel).symm

theorem autoSelectAdd_eq (p : CartItem) (a : Supplier) (rest : List Supplier)
    (ho : p.availableSuppliers = some (a :: rest))
    (hs : strTruthy p.selectedSupplierName = false) :
    autoSelectAdd p =
      { p with selectedSupplierName := some (cheapestFrom a (a :: rest)).name } := by
  unfold autoSelectAdd
  rw [ho]
  simp [hs]

/-- **C4** fails as stated: adding a product with a non-empty offer list
and no explicit selection can *merge* into an existing entry that also
has no selection (same id, both `selectedSupplierName` undefined); the
resulting cart item has a non-empty offer list but its selected supplier
is not the minimum-price offer — it is still unset. -/
theorem C4_counterexample :
    strTruthy (CartItem.selectedSupplierName ⟨1, "x", 1, some [⟨"A", 10⟩], none⟩) = false ∧
    addToCart ⟨1, "x", 1, some [⟨"A", 10⟩], none⟩ [⟨1, "x", 1, some [⟨"A", 10⟩], none⟩] =
      [⟨1, "x", 2, some [⟨"A", 10⟩], none⟩] ∧
    (CartItem.selectedSupplierName ⟨1, "x", 2, some [⟨"A", 10⟩], none⟩) ≠ some "A" := by
  refine ⟨rfl, ?_, by simp⟩
  decide

/-- **C4** (amended: restricted to initialization and to additions that
append a new entry, i.e. no existing entry matches id + selected
supplier).  After initialization every item with a non-empty offer list
has the fold's cheapest offer selected, and an `addToCart` that appends
an unselected product selects it too; that offer is a minimum-price
offer, ties broken by first occurrence in the offer list. -/
theorem C4_auto_select (item p : CartItem) (a : Supplier)
    (rest : List Supplier) (items : List CartItem) :
    (item.availableSuppliers = some (a :: rest) →
      (initItem item).selectedSupplierName = some (cheapestFrom a (a :: rest)).name ∧
      firstMinOffer (a :: rest) (cheapestFrom a (a :: rest))) ∧
    (p.availableSuppliers = some (a :: rest) →
      strTruthy p.selectedSupplierName = false →
      (∀ it ∈ items, it.id = p.id → it.selectedSupplierName ≠ p.selectedSupplierName) →
      addToCart p items = items ++
        [{ p with selectedSupplierName := some (cheapestFrom a (a :: rest)).name }] ∧
      firstMinOffer (a :: rest) (cheapestFrom a (a :: rest))) := by
  constructor
  · intro h
    refine ⟨?_, cheapestFrom_firstMin a rest⟩
    rw [initItem_eq item a rest h]
  · intro ho hs hnm
    refine ⟨?_, cheapestFrom_firstMin a rest⟩
    rw [addToCart_append_eq p items hnm, autoSelectAdd_eq p a rest ho hs]

theorem C4_auto_select_witness :
    ((initItem ⟨1, "x", 1, some [⟨"A", 10⟩, ⟨"B", 8⟩], some "A"⟩).selectedSupplierName =
        some (cheapestFrom ⟨"A", 10⟩ [⟨"A", 10⟩, ⟨"B", 8⟩]).name ∧
      firstMinOffer [⟨"A", 10⟩, ⟨"B", 8⟩] (cheapestFrom ⟨"A", 10⟩ [⟨"A", 10⟩, ⟨"B", 8⟩])) ∧
    (addToCart ⟨2, "y", 1, some [⟨"A", 10⟩, ⟨"B", 8⟩], none⟩ [] =
        [] ++ [{ (⟨2, "y", 1, some [⟨"A", 10⟩, ⟨"B", 8⟩], none⟩ : CartItem) with
          selectedSupplierName := some (cheapestFrom ⟨"A", 10⟩ [⟨"A", 10⟩, ⟨"B", 8⟩]).name }] ∧
      firstMinOffer [⟨"A", 10⟩, ⟨"B", 8⟩] (cheapestFrom ⟨"A", 10⟩ [⟨"A", 10⟩, ⟨"B", 8⟩])) :=
  ⟨(C4_auto_select ⟨1, "x", 1, some [⟨"A", 10⟩, ⟨"B", 8⟩], some "A"⟩
      ⟨2, "y", 1, some [⟨"A", 10⟩, ⟨"B", 8⟩], none⟩ ⟨"A", 10⟩ [⟨"B", 8⟩] []).1 rfl,
   (C4_auto_select ⟨1, "x", 1, some [⟨"A", 10⟩, ⟨"B", 8⟩], some "A"⟩
      ⟨2, "y", 1, some [⟨"A", 10⟩, ⟨"B", 8⟩], none⟩ ⟨"A", 10⟩ [⟨"B", 8⟩] []).2 rfl rfl
      (by simp)⟩

theorem autoSelectAdd_quantity (p : CartItem) :
    (autoSelectAdd p).quantity = p.quantity := by
  unfold autoSelectAdd
  cases hs : p.availableSuppliers with
  | none => rfl
  | some l =>
    cases l with
    | nil => rfl
    | cons a rest =>
      dsimp only
      split <;> rfl

theorem addToCart_pos (p : CartItem) (items : List CartItem)
    (hall : ∀ it ∈ items, 0 < it.quantity) (hp : 0 < p.quantity) :
    ∀ it ∈ addToCart p items, 0 < it.quantity := by
  induction items with
  | nil =>
    intro it hit
    simp only [addToCart, List.mem_singleton] at hit
    rw [hit, autoSelectAdd_quantity]
    exact hp
  | cons e rest ih =>
    intro it hit
    unfold addToCart at hit
    by_cases hm : matchKey e p
    · rw [if_pos hm] at hit
      rcases List.mem_cons.mp hit with hit | hit
      · rw [hit]
        exact add_pos (hall e (List.mem_cons_self e rest)) hp
      · exact hall it (List.mem_cons_of_mem e hit)
    · rw [if_neg hm] at hit
      rcases List.mem_cons.mp hit with hit | hit
      · rw [hit]
        exact hall e (List.mem_cons_self e rest)
      · exact ih (fun x hx => hall x (List.mem_cons_of_mem e hx)) it hit

theorem updateQuantity_pos (pid q : ℤ) (items : List CartItem) :
    ∀ it ∈ updateQuantity pid q items, 0 < it.quantity := by
  intro it hit
  unfold updateQuantity at hit
  have := List.of_mem_filter hit
  simpa using this

theorem updateQuantity_removes (pid q : ℤ) (items : List CartItem)
    (hq : q ≤ 0) : ∀ it ∈ updateQuantity pid q items, ¬ it.id = pid := by
  intro it hit hid
  have hpos : 0 < it.quantity := updateQuantity_pos pid q items it hit
  unfold updateQuantity at hit
  have hmem := List.mem_of_mem_filter hit
  rcases List.mem_map.mp hmem with ⟨x, _, hfx⟩
  by_cases hx : x.id = pid
  · rw [if_pos (beq_iff_eq.mpr hx)] at hfx
    rw [← hfx] at hpos
    exact absurd hpos (not_lt.mpr hq)
  · rw [if_neg (by simpa using hx)] at hfx
    rw [← hfx] at hid
    exact hx hid

theorem placeOrder_items_cases (oid d : String) (s : CartState) :
    (placeOrder oid d s).items = s.items ∨ (placeOrder oid d s).items = [] := by
  unfold placeOrder
  split
  · exact Or.inl rfl
  · split
    · exact Or.inl rfl
    · dsimp only
      split
      · exact Or.inl rfl
      · exact Or.inr rfl

/-- **C5** fails as stated: `addToCart` of a product whose own quantity
is not positive, applied to a cart with all quantities positive (here
the empty cart), leaves an entry with quantity ≤ 0 in the cart. -/
theorem C5_counterexample :
    (∀ it ∈ ([] : List CartItem), 0 < it.quantity) ∧
    addToCart ⟨1, "x", 0, none, none⟩ [] = [⟨1, "x", 0, none, none⟩] ∧
    ¬ (∀ it ∈ addToCart ⟨1, "x", 0, none, none⟩ [], 0 < it.quantity) := by
  decide

/-- **C5** (amended: for `addToCart` the incoming product's quantity
must itself be positive).  `updateQuantity` with `q ≤ 0` removes every
entry with the given id; and every store operation applied to a cart
whose quantities are all positive (with a positive-quantity incoming
product for `addToCart`) leaves only entries with positive quantity —
`updateQuantity` even unconditionally. -/
theorem C5_quantity_invariant (pid q iid : ℤ) (p : CartItem)
    (nm : Option String) (oid d : String) (items : List CartItem) (s : CartState) :
    (q ≤ 0 → ∀ it ∈ updateQuantity pid q items, ¬ it.id = pid) ∧
    (∀ it ∈ updateQuantity pid q items, 0 < it.quantity) ∧
    ((∀ it ∈ items, 0 < it.quantity) → 0 < p.quantity →
      ∀ it ∈ addToCart p items, 0 < it.quantity) ∧
    ((∀ it ∈ items, 0 < it.quantity) →
      ∀ it ∈ removeFromCart pid items, 0 < it.quantity) ∧
    (∀ it ∈ (clearCart : List CartItem), 0 < it.quantity) ∧
    ((∀ it ∈ items, 0 < it.quantity) →
      ∀ it ∈ selectSupplierForItem iid nm items, 0 < it.quantity) ∧
    ((∀ it ∈ s.items, 0 < it.quantity) →
      ∀ it ∈ (placeOrder oid d s).items, 0 < it.quantity) := by
  refine ⟨updateQuantity_removes pid q items, updateQuantity_pos pid q items,
    addToCart_pos p items, ?_, by simp [clearCart], ?_, ?_⟩
  · intro hall it hit
    exact hall it (List.mem_of_mem_filter hit)
  · intro hall it hit
    rcases List.mem_map.mp hit with ⟨x, hx, hfx⟩
    by_cases hid : x.id == iid
    · rw [if_pos hid] at hfx
      rw [← hfx]
      exact hall x hx
    · rw [if_neg hid] at hfx
      rw [← hfx]
      exact hall x hx
  · intro hall it hit
    rcases placeOrder_items_cases oid d s with hc | hc
    · rw [hc] at hit
      exact hall it hit
    · rw [hc] at hit
      exact absurd hit (List.not_mem_nil it)

theorem C5_quantity_invariant_witness :
    (∀ it ∈ updateQuantity 1 0 [⟨1, "a", 2, none, none⟩], ¬ it.id = 1) ∧
    (∀ it ∈ updateQuantity 1 0 [⟨1, "a", 2, none, none⟩], 0 < it.quantity) ∧
    (∀ it ∈ addToCart ⟨2, "y", 3, none, none⟩ [⟨1, "a", 2, none, none⟩], 0 < it.quantity) ∧
    (∀ it ∈ removeFromCart 1 [⟨1, "a", 2, none, none⟩], 0 < it.quantity) ∧
    (∀ it ∈ (clearCart : List CartItem), 0 < it.quantity) ∧
    (∀ it ∈ selectSupplierForItem 1 (some "A") [⟨1, "a", 2, none, none⟩], 0 < it.quantity) ∧
    (∀ it ∈ (placeOrder "o" "d" ⟨[⟨1, "a", 2, none, none⟩], []⟩).items, 0 < it.quantity) :=
  ⟨(C5_quantity_invariant 1 0 1 ⟨2, "y", 3, none, none⟩ (some "A") "o" "d"
      [⟨1, "a", 2, none, none⟩] ⟨[⟨1, "a", 2, none, none⟩], []⟩).1 (by decide),
   (C5_quantity_invariant 1 0 1 ⟨2, "y", 3, none, none⟩ (some "A") "o" "d"
      [⟨1, "a", 2, none, none⟩] ⟨[⟨1, "a", 2, none, none⟩], []⟩).2.1,
   (C5_quantity_invariant 1 0 1 ⟨2, "y", 3, none, none⟩ (some "A") "o" "d"
      [⟨1, "a", 2, none, none⟩] ⟨[⟨1, "a", 2, none, none⟩], []⟩).2.2.1
      (by decide) (by decide),
   (C5_quantity_invariant 1 0 1 ⟨2, "y", 3, none, none⟩ (some "A") "o" "d"
      [⟨1, "a", 2, none, none⟩] ⟨[⟨1, "a", 2, none, none⟩], []⟩).2.2.2.1 (by decide),
   (C5_quantity_invariant 1 0 1 ⟨2, "y", 3, none, none⟩ (some "A") "o" "d"
      [⟨1, "a", 2, none, none⟩] ⟨[⟨1, "a", 2, none, none⟩], []⟩).2.2.2.2.1,
   (C5_quantity_invariant 1 0 1 ⟨2, "y", 3, none, none⟩ (some "A") "o" "d"
      [⟨1, "a", 2, none, none⟩] ⟨[⟨1, "a", 2, none, none⟩], []⟩).2.2.2.2.2.1 (by decide),
   (C5_quantity_invariant 1 0 1 ⟨2, "y", 3, none, none⟩ (some "A") "o" "d"
      [⟨1, "a", 2, none, none⟩] ⟨[⟨1, "a", 2, none, none⟩], []⟩).2.2.2.2.2.2 (by decide)⟩

/-- **C6**: the order-id scheme
`ORDER-${Date.now()}-${Math.floor(Math.random()*1000)}` does not
guarantee uniqueness: two successful checkouts in the same millisecond
with the same random draw produce two orders in the history whose ids
are equal, contradicting the required pairwise distinctness (and the
source's own comment calling the id unique). -/
theorem C6_duplicate_order_ids :
    (placeOrder (genOrderId 1000 5) "t1"
      ⟨[⟨1, "W", 2, some [⟨"B", 8⟩], some "B"⟩], []⟩).callbackCount = 1 ∧
    (placeOrder (genOrderId 1000 5) "t2"
      ⟨[⟨1, "W", 2, some [⟨"B", 8⟩], some "B"⟩],
        (placeOrder (genOrderId 1000 5) "t1"
          ⟨[⟨1, "W", 2, some [⟨"B", 8⟩], some "B"⟩], []⟩).orders⟩).callbackCount = 1 ∧
    ¬ ((placeOrder (genOrderId 1000 5) "t2"
      ⟨[⟨1, "W", 2, some [⟨"B", 8⟩], some "B"⟩],
        (placeOrder (genOrderId 1000 5) "t1"
          ⟨[⟨1, "W", 2, some [⟨"B", 8⟩], some "B"⟩], []⟩).orders⟩).orders.map
            Order.id).Nodup := by
  decide

theorem filterMap_skip_ne (e : CartItem) (he : mkOrderItem e = none) :
    ∀ items : List CartItem,
      items.filterMap mkOrderItem =
        (items.filter (fun it => decide (it ≠ e))).filterMap mkOrderItem := by
  intro items
  induction items with
  | nil => rfl
  | cons a l ih =>
    by_cases ha : a = e
    · rw [List.filter_cons_of_neg (by simp [ha])]
      rw [List.filterMap_cons, ha, he]
      exact ih
    · rw [List.filter_cons_of_pos (by simp [ha])]
      rw [List.filterMap_cons, List.filterMap_cons]
      cases mkOrderItem a with
      | none => exact ih
      | some oi => rw [ih]

/-- **C7**: in a checkout that passes the empty-cart and
all-suppliers-selected checks, an entry whose selected supplier name
resolves to no offer is silently skipped — the created order's items
and total are the same as if the entry were absent — and as long as
some other entry resolves, the checkout still succeeds (order appended,
callback invoked once). -/
theorem C7_silent_skip (oid d : String) (s : CartState) (e e2 : CartItem)
    (hall : ∀ it ∈ s.items, strTruthy it.selectedSupplierName = true)
    (he : e ∈ s.items) (henone : mkOrderItem e = none)
    (he2 : e2 ∈ s.items) (he2some : (mkOrderItem e2).isSome) :
    (placeOrder oid d s).callbackCount = 1 ∧
    (placeOrder oid d s).orders = s.orders ++
      [⟨oid, d, s.items.filterMap mkOrderItem,
        round2 (((s.items.filterMap mkOrderItem).map OrderItem.itemTotal).sum)⟩] ∧
    s.items.filterMap mkOrderItem =
      (s.items.filter (fun it => decide (it ≠ e))).filterMap mkOrderItem := by
  have hne : s.items ≠ [] := by
    intro h
    rw [h] at he
    exact absurd he (List.not_mem_nil e)
  have hfm : s.items.filterMap mkOrderItem ≠ [] := by
    rw [Ne, List.filterMap_eq_nil_iff]
    intro hnone
    rw [hnone e2 he2] at he2some
    exact absurd he2some (by simp)
  rw [placeOrder_success_eq oid d s hne hall hfm]
  exact ⟨rfl, rfl, filterMap_skip_ne e henone s.items⟩

theorem C7_silent_skip_witness :
    (placeOrder "o" "d" ⟨[⟨1, "x", 1, some [⟨"A", 10⟩], some "C"⟩,
        ⟨2, "y", 2, some [⟨"B", 8⟩], some "B"⟩], []⟩).callbackCount = 1 ∧
    (placeOrder "o" "d" ⟨[⟨1, "x", 1, some [⟨"A", 10⟩], some "C"⟩,
        ⟨2, "y", 2, some [⟨"B", 8⟩], some "B"⟩], []⟩).orders = [] ++
      [⟨"o", "d",
        [⟨1, "x", 1, some [⟨"A", 10⟩], some "C"⟩,
          ⟨2, "y", 2, some [⟨"B", 8⟩], some "B"⟩].filterMap mkOrderItem,
        round2 ((([⟨1, "x", 1, some [⟨"A", 10⟩], some "C"⟩,
          ⟨2, "y", 2, some [⟨"B", 8⟩], some "B"⟩].filterMap mkOrderItem).map
            OrderItem.itemTotal).sum)⟩] ∧
    [⟨1, "x", 1, some [⟨"A", 10⟩], some "C"⟩,
      ⟨2, "y", 2, some [⟨"B", 8⟩], some "B"⟩].filterMap mkOrderItem =
      ([⟨1, "x", 1, some [⟨"A", 10⟩], some "C"⟩,
        ⟨2, "y", 2, some [⟨"B", 8⟩], some "B"⟩].filter
          (fun it => decide (it ≠ ⟨1, "x", 1, some [⟨"A", 10⟩], some "C"⟩))).filterMap
            mkOrderItem :=
  C7_silent_skip "o" "d"
    ⟨[⟨1, "x", 1, some [⟨"A", 10⟩], some "C"⟩,
      ⟨2, "y", 2, some [⟨"B", 8⟩], some "B"⟩], []⟩
    ⟨1, "x", 1, some [⟨"A", 10⟩], some "C"⟩
    ⟨2, "y", 2, some [⟨"B", 8⟩], some "B"⟩
    (by decide) (by decide) (by decide) (by decide) (by decide)

theorem initItem_frame (it : CartItem) :
    (initItem it).id = it.id ∧ (initItem it).name = it.name ∧
    (initItem it).quantity = it.quantity ∧
    (initItem it).availableSuppliers = it.availableSuppliers := by
  unfold initItem
  cases h : it.availableSuppliers with
  | none => exact ⟨rfl, rfl, rfl, h⟩
  | some l =>
    cases l with
    | nil => exact ⟨rfl, rfl, rfl, h⟩
    | cons a rest =>
      dsimp only
      split
      · exact ⟨rfl, rfl, rfl, rfl⟩
      · exact ⟨rfl, rfl, rfl, h⟩

theorem initItem_no_offers (it : CartItem)
    (h : it.availableSuppliers = none ∨ it.availableSuppliers = some []) :
    initItem it = it := by
  unfold initItem
  rcases h with h | h <;> rw [h]

/-- **C8**: reloading the two persisted collections through the store's
initializers reproduces them: orders come back identical, and each cart
item comes back with id, name, quantity and offer list unchanged —
identical when it has no offers, and with the fold's cheapest offer's
name as its selected supplier when its offer list is non-empty. -/
theorem C8_round_trip (s : CartState) :
    (loadState (saveState s)).orders = s.orders ∧
    (loadState (saveState s)).items = s.items.map initItem ∧
    ∀ it ∈ s.items,
      (initItem it).id = it.id ∧ (initItem it).name = it.name ∧
      (initItem it).quantity = it.quantity ∧
      (initItem it).availableSuppliers = it.availableSuppliers ∧
      ((it.availableSuppliers = none ∨ it.availableSuppliers = some []) →
        initItem it = it) ∧
      (∀ a rest, it.availableSuppliers = some (a :: rest) →
        (initItem it).selectedSupplierName = some (cheapestFrom a (a :: rest)).name) := by
  refine ⟨rfl, rfl, ?_⟩
  intro it _
  obtain ⟨h1, h2, h3, h4⟩ := initItem_frame it
  refine ⟨h1, h2, h3, h4, initItem_no_offers it, ?_⟩
  intro a rest h
  rw [initItem_eq it a rest h]

theorem C8_round_trip_witness :
    (loadState (saveState ⟨[⟨1, "x", 1, none, some "Z"⟩,
        ⟨2, "y", 2, some [⟨"A", 10⟩, ⟨"B", 8⟩], some "A"⟩],
        [⟨"o1", "d1", [], 0⟩]⟩)).orders = [⟨"o1", "d1", [], 0⟩] ∧
    (loadState (saveState ⟨[⟨1, "x", 1, none, some "Z"⟩,
        ⟨2, "y", 2, some [⟨"A", 10⟩, ⟨"B", 8⟩], some "A"⟩],
        [⟨"o1", "d1", [], 0⟩]⟩)).items =
      [⟨1, "x", 1, none, some "Z"⟩,
        ⟨2, "y", 2, some [⟨"A", 10⟩, ⟨"B", 8⟩], some "A"⟩].map initItem ∧
    initItem ⟨1, "x", 1, none, some "Z"⟩ = ⟨1, "x", 1, none, some "Z"⟩ ∧
    (initItem ⟨2, "y", 2, some [⟨"A", 10⟩, ⟨"B", 8⟩], some "A"⟩).selectedSupplierName =
      some (cheapestFrom ⟨"A", 10⟩ [⟨"A", 10⟩, ⟨"B", 8⟩]).name :=
  ⟨(C8_round_trip ⟨[⟨1, "x", 1, none, some "Z"⟩,
      ⟨2, "y", 2, some [⟨"A", 10⟩, ⟨"B", 8⟩], some "A"⟩], [⟨"o1", "d1", [], 0⟩]⟩).1,
   (C8_round_trip ⟨[⟨1, "x", 1, none, some "Z"⟩,
      ⟨2, "y", 2, some [⟨"A", 10⟩, ⟨"B", 8⟩], some "A"⟩], [⟨"o1", "d1", [], 0⟩]⟩).2.1,
   ((C8_round_trip ⟨[⟨1, "x", 1, none, some "Z"⟩,
      ⟨2, "y", 2, some [⟨"A", 10⟩, ⟨"B", 8⟩], some "A"⟩], [⟨"o1", "d1", [], 0⟩]⟩).2.2
      ⟨1, "x", 1, none, some "Z"⟩ (by decide)).2.2.2.2.1 (Or.inl rfl),
   ((C8_round_trip ⟨[⟨1, "x", 1, none, some "Z"⟩,
      ⟨2, "y", 2, some [⟨"A", 10⟩, ⟨"B", 8⟩], some "A"⟩], [⟨"o1", "d1", [], 0⟩]⟩).2.2
      ⟨2, "y", 2, some [⟨"A", 10⟩, ⟨"B", 8⟩], some "A"⟩ (by decide)).2.2.2.2.2
      ⟨"A", 10⟩ [⟨"B", 8⟩] rfl⟩

theorem updateQuantity_filter_ne (pid q : ℤ) :
    ∀ items : List CartItem,
      (updateQuantity pid q items).filter (fun it => !(it.id == pid)) =
        items.filter (fun it => !(it.id == pid) && decide (0 < it.quantity)) := by
  intro items
  induction items with
  | nil => rfl
  | cons x l ih =>
    unfold updateQuantity at ih ⊢
    rw [List.map_cons]
    by_cases hx : x.id == pid
    · rw [if_pos hx]
      by_cases hq : 0 < q
      · rw [List.filter_cons_of_pos (by simpa using hq),
          List.filter_cons_of_neg (by simpa using hx),
          List.filter_cons_of_neg (by simp [hx])]
        exact ih
      · rw [List.filter_cons_of_neg (by simpa using hq),
          List.filter_cons_of_neg (by simp [hx])]
        exact ih
    · rw [if_neg hx]
      by_cases hq : 0 < x.quantity
      · rw [List.filter_cons_of_pos (by simpa using hq),
          List.filter_cons_of_pos (by simpa using hx),
          List.filter_cons_of_pos (by simp [hx, hq])]
        rw [ih]
      · rw [List.filter_cons_of_neg (by simpa using hq),
          List.filter_cons_of_neg (by simp [hx, hq])]
        exact ih

theorem updateQuantity_nonpos (pid q : ℤ) (hq : q ≤ 0) :
    ∀ items : List CartItem,
      updateQuantity pid q items =
        items.filter (fun it => !(it.id == pid) && decide (0 < it.quantity)) := by
  intro items
  induction items with
  | nil => rfl
  | cons x l ih =>
    unfold updateQuantity at ih ⊢
    rw [List.map_cons]
    by_cases hx : x.id == pid
    · rw [if_pos hx,
        List.filter_cons_of_neg (by simpa using not_lt.mpr hq),
        List.filter_cons_of_neg (by simp [hx])]
      exact ih
    · rw [if_neg hx]
      by_cases hpos : 0 < x.quantity
      · rw [List.filter_cons_of_pos (by simpa using hpos),
          List.filter_cons_of_pos (by simp [hx, hpos])]
        rw [ih]
      · rw [List.filter_cons_of_neg (by simpa using hpos),
          List.filter_cons_of_neg (by simp [hx, hpos])]
        exact ih

/-- **C9**: `updateQuantity` leaves no entry with quantity ≤ 0 in the
cart — the entries with a different id that survive are exactly the
pre-existing ones with positive quantity, in order and unmodified (so
stale entries with quantity ≤ 0 are removed too) — and with `q ≤ 0` the
whole result is exactly those survivors. -/
theorem C9_updateQuantity_frame (pid q : ℤ) (items : List CartItem) :
    (∀ it ∈ updateQuantity pid q items, 0 < it.quantity) ∧
    (updateQuantity pid q items).filter (fun it => !(it.id == pid)) =
      items.filter (fun it => !(it.id == pid) && decide (0 < it.quantity)) ∧
    (q ≤ 0 → updateQuantity pid q items =
      items.filter (fun it => !(it.id == pid) && decide (0 < it.quantity))) :=
  ⟨updateQuantity_pos pid q items, updateQuantity_filter_ne pid q items,
    fun hq => updateQuantity_nonpos pid q hq items⟩

theorem C9_updateQuantity_frame_witness :
    (∀ it ∈ updateQuantity 1 0
      [⟨1, "a", 2, none, none⟩, ⟨2, "b", -1, none, none⟩, ⟨3, "c", 2, none, none⟩],
      0 < it.quantity) ∧
    (updateQuantity 1 0
      [⟨1, "a", 2, none, none⟩, ⟨2, "b", -1, none, none⟩, ⟨3, "c", 2, none, none⟩]).filter
        (fun it => !(it.id == 1)) =
      [⟨1, "a", 2, none, none⟩, ⟨2, "b", -1, none, none⟩, ⟨3, "c", 2, none, none⟩].filter
        (fun it => !(it.id == 1) && decide (0 < it.quantity)) ∧
    updateQuantity 1 0
      [⟨1, "a", 2, none, none⟩, ⟨2, "b", -1, none, none⟩, ⟨3, "c", 2, none, none⟩] =
      [⟨1, "a", 2, none, none⟩, ⟨2, "b", -1, none, none⟩, ⟨3, "c", 2, none, none⟩].filter
        (fun it => !(it.id == 1) && decide (0 < it.quantity)) :=
  ⟨(C9_updateQuantity_frame 1 0
      [⟨1, "a", 2, none, none⟩, ⟨2, "b", -1, none, none⟩, ⟨3, "c", 2, none, none⟩]).1,
   (C9_updateQuantity_frame 1 0
      [⟨1, "a", 2, none, none⟩, ⟨2, "b", -1, none, none⟩, ⟨3, "c", 2, none, none⟩]).2.1,
   (C9_updateQuantity_frame 1 0
      [⟨1, "a", 2, none, none⟩, ⟨2, "b", -1, none, none⟩, ⟨3, "c", 2, none, none⟩]).2.2
      (by decide)⟩

theorem placeOrder_orders_cases (oid d : String) (s : CartState) :
    ((placeOrder oid d s).callbackCount = 0 ∧ (placeOrder oid d s).orders = s.orders) ∨
    ((placeOrder oid d s).callbackCount = 1 ∧
      ∃ o, (placeOrder oid d s).orders = s.orders ++ [o]) := by
  unfold placeOrder
  split
  · exact Or.inl ⟨rfl, rfl⟩
  · split
    · exact Or.inl ⟨rfl, rfl⟩
    · dsimp only
      split
      · exact Or.inl ⟨rfl, rfl⟩
      · exact Or.inr ⟨rfl, _, rfl⟩

/-- **C10**: none of the five cart mutations touches the order history,
and `placeOrder` either leaves it unchanged (when it aborts, i.e. the
callback is not invoked) or extends it by exactly one appended order
(when it succeeds), keeping all previously stored orders intact. -/
theorem C10_orders_frame (p : CartItem) (pid q iid : ℤ) (nm : Option String)
    (oid d : String) (s : CartState) :
    (stateAddToCart p s).orders = s.orders ∧
    (stateRemoveFromCart pid s).orders = s.orders ∧
    (stateUpdateQuantity pid q s).orders = s.orders ∧
    (stateClearCart s).orders = s.orders ∧
    (stateSelectSupplier iid nm s).orders = s.orders ∧
    ((placeOrder oid d s).callbackCount = 1 →
      ∃ o, (placeOrder oid d s).orders = s.orders ++ [o]) ∧
    ((placeOrder oid d s).callbackCount = 0 →
      (placeOrder oid d s).orders = s.orders) := by
  refine ⟨rfl, rfl, rfl, rfl, rfl, ?_, ?_⟩
  · intro hcb
    rcases placeOrder_orders_cases oid d s with ⟨h0, _⟩ | ⟨_, h⟩
    · rw [hcb] at h0
      exact absurd h0 one_ne_zero
    · exact h
  · intro hcb
    rcases placeOrder_orders_cases oid d s with ⟨_, h⟩ | ⟨h1, _⟩
    · exact h
    · rw [hcb] at h1
      exact absurd h1 zero_ne_one

theorem C10_orders_frame_witness :
    (stateAddToCart ⟨1, "a", 1, none, none⟩
      ⟨[], [⟨"o0", "d0", [], 0⟩]⟩).orders = [⟨"o0", "d0", [], 0⟩] ∧
    (stateRemoveFromCart 1 ⟨[], [⟨"o0", "d0", [], 0⟩]⟩).orders = [⟨"o0", "d0", [], 0⟩] ∧
    (stateUpdateQuantity 1 2 ⟨[], [⟨"o0", "d0", [], 0⟩]⟩).orders = [⟨"o0", "d0", [], 0⟩] ∧
    (stateClearCart ⟨[], [⟨"o0", "d0", [], 0⟩]⟩).orders = [⟨"o0", "d0", [], 0⟩] ∧
    (stateSelectSupplier 1 none ⟨[], [⟨"o0", "d0", [], 0⟩]⟩).orders = [⟨"o0", "d0", [], 0⟩] ∧
    (∃ o, (placeOrder "o" "d"
      ⟨[⟨1, "W", 2, some [⟨"B", 8⟩], some "B"⟩], [⟨"o0", "d0", [], 0⟩]⟩).orders =
        [⟨"o0", "d0", [], 0⟩] ++ [o]) ∧
    (placeOrder "o" "d" ⟨[], [⟨"o0", "d0", [], 0⟩]⟩).orders = [⟨"o0", "d0", [], 0⟩] :=
  ⟨(C10_orders_frame ⟨1, "a", 1, none, none⟩ 1 2 1 none "o" "d"
      ⟨[], [⟨"o0", "d0", [], 0⟩]⟩).1,
   (C10_orders_frame ⟨1, "a", 1, none, none⟩ 1 2 1 none "o" "d"
      ⟨[], [⟨"o0", "d0", [], 0⟩]⟩).2.1,
   (C10_orders_frame ⟨1, "a", 1, none, none⟩ 1 2 1 none "o" "d"
      ⟨[], [⟨"o0", "d0", [], 0⟩]⟩).2.2.1,
   (C10_orders_frame ⟨1, "a", 1, none, none⟩ 1 2 1 none "o" "d"
      ⟨[], [⟨"o0", "d0", [], 0⟩]⟩).2.2.2.1,
   (C10_orders_frame ⟨1, "a", 1, none, none⟩ 1 2 1 none "o" "d"
      ⟨[], [⟨"o0", "d0", [], 0⟩]⟩).2.2.2.2.1,
   (C10_orders_frame ⟨1, "a", 1, none, none⟩ 1 2 1 none "o" "d"
      ⟨[⟨1, "W", 2, some [⟨"B", 8⟩], some "B"⟩], [⟨"o0", "d0", [], 0⟩]⟩).2.2.2.2.2.1
      (by decide),
   (C10_orders_frame ⟨1, "a", 1, none, none⟩ 1 2 1 none "o" "d"
      ⟨[], [⟨"o0", "d0", [], 0⟩]⟩).2.2.2.2.2.2 (by decide)⟩
